import Mathlib

/-!
Verification development for the Twilio ↔ OpenAI realtime voice relay
(`src/index.js`).  The relay's per-call state and event handlers are given a
shallow embedding: JavaScript numbers appearing in timestamp arithmetic are
modelled as `Int`, byte values as `Nat`, and the two peer sockets as
readyState flags together with lists of the frames successfully written to
them.  The program always calls `send` without a callback, so the `ws`
library's behaviour on a socket that is not OPEN is: on a CLOSING or
CLOSED socket the frame is dropped silently (`sendAfterClose` emits no
error and logs nothing when no callback is given), and on a CONNECTING
socket `send` throws synchronously.  The silent drop is modelled by
returning the state unchanged; the synchronous throw by the `crashed`
flag — an exception escaping an event or timer callback is uncaught in
this program (there is no try/catch around the timer bodies and no
process-level handler), so it is process-fatal and no further events run.
-/

namespace HomeSave

/-- μ-law byte → linear PCM16 decoder, translated from `mulawByteToPcm16`
(src/index.js lines 46-64).  For a byte `u8 < 256`, the JS expression
`~u8 & 0xff` equals `255 - u8`. -/
def mulawByteToPcm16 (u8 : Nat) : Int :=
  let u := 255 - u8
  let sign := u &&& 0x80
  let exponent := (u >>> 4) &&& 0x07
  let mantissa := u &&& 0x0f
  let bias : Int := 0x84
  let magnitude0 : Int := (((mantissa <<< 4) + 0x08) <<< (exponent + 3) : Nat)
  let magnitude := magnitude0 - bias
  let sample : Int := if sign ≠ 0 then -magnitude else magnitude
  if sample > 32767 then 32767
  else if sample < -32768 then -32768
  else sample

/-- The decoding algorithm exactly as the specification words it (§4.2):
invert all bits; sign = bit 7, exponent = bits 6-4, mantissa = bits 3-0 of
the inverted byte; magnitude = `((mantissa << 4) + 8) << (exponent + 3)`
minus the fixed bias 132; negate when the sign bit is set; clamp to
`[-32768, 32767]`. -/
def specMulawDecode (b : Nat) : Int :=
  let inv := b ^^^ 255
  let sign := inv / 128
  let exponent := (inv / 16) % 8
  let mantissa := inv % 16
  let magnitude : Int := ((mantissa * 16 + 8) * 2 ^ (exponent + 3) : Nat) - 132
  let signed := if sign = 1 then -magnitude else magnitude
  min 32767 (max (-32768) signed)

/-- Little-endian two-byte encoding of a 16-bit sample, as `writeInt16LE`
stores it (two's complement). -/
def pcm16leBytes (s : Int) : List Nat :=
  let v := (s % 65536).toNat
  [v % 256, v / 256]

/-- Frame-level decoder, translated from `mulawBase64ToPcm16Base64`
(src/index.js lines 67-75).  The base64 transport encoding at each end is
an external bijective codec (`Buffer.from(b64, 'base64')` /
`toString('base64')`); the function is modelled on the decoded byte
sequences, where it maps each μ-law byte to the two little-endian bytes of
its PCM16 sample. -/
def mulawBase64ToPcm16Base64 (mu : List Nat) : List Nat :=
  mu.flatMap (fun b => pcm16leBytes (mulawByteToPcm16 b))

/-- Timing constant `MIN_BUFFER_MS` (src/index.js line 28). -/
def MIN_BUFFER_MS : Int := 250

/-- Messages written to the OpenAI realtime socket. -/
inductive AiMsg where
  | sessionUpdate : AiMsg
  | append (audio : List Nat) : AiMsg
  | commit : AiMsg
  | responseCreate : AiMsg
  | truncate (itemId : Nat) (audioEndMs : Int) : AiMsg
  deriving DecidableEq

/-- Messages written to the Twilio media-stream socket. -/
inductive TwMsg where
  | media (payload : List Nat) : TwMsg
  | mark : TwMsg
  | clear : TwMsg
  deriving DecidableEq

/-- Per-call relay state (src/index.js lines 119-131), extended with the
observable transport state: `pendingCommit` models the scheduled
`COMMIT_DELAY_MS` flush task, `aiOpen`/`aiConnecting` the OpenAI socket's
readyState (OPEN / CONNECTING; neither flag set means CLOSING or CLOSED),
`wsOpen` the accepted Twilio socket's readyState (server-side sockets are
born OPEN and are never CONNECTING), `aiSent`/`twSent` the frames
actually transmitted, and `crashed` an uncaught synchronous exception
from a `send` on a CONNECTING socket — process-fatal, so no event fires
after it. -/
structure Session where
  streamSid : Option Nat
  latestMediaTimestamp : Int
  captureStartMs : Option Int
  bufferedMs : Int
  awaitingResponse : Bool
  silenceTimerArmed : Bool
  pendingCommit : Bool
  lastAssistantItem : Option Nat
  responseStartTimestampTwilio : Option Int
  markQueue : List Unit
  aiOpen : Bool
  aiConnecting : Bool
  wsOpen : Bool
  aiSent : List AiMsg
  twSent : List TwMsg
  crashed : Bool
  deriving DecidableEq

/-- State at Twilio connection time, before any event (src/index.js lines
119-131): the OpenAI socket has just been created and is still in its
CONNECTING phase. -/
def initConn : Session :=
  { streamSid := none
    latestMediaTimestamp := 0
    captureStartMs := none
    bufferedMs := 0
    awaitingResponse := false
    silenceTimerArmed := false
    pendingCommit := false
    lastAssistantItem := none
    responseStartTimestampTwilio := none
    markQueue := []
    aiOpen := false
    aiConnecting := true
    wsOpen := true
    aiSent := []
    twSent := []
    crashed := false }

/-- `openAiWs.send(...)` with no callback, per the `ws` library: delivered
when the socket is OPEN; a synchronous throw when it is CONNECTING (the
program does not catch it, so the exception escapes the calling event or
timer callback — `crashed`); a silent drop when it is CLOSING or CLOSED
(`sendAfterClose` emits no error when no callback is given). -/
def sendAi (s : Session) (m : AiMsg) : Session :=
  if s.aiOpen then { s with aiSent := s.aiSent ++ [m] }
  else if s.aiConnecting then { s with crashed := true }
  else s

/-- `ws.send` toward Twilio with no callback: delivered when OPEN,
silently dropped when CLOSING or CLOSED; an accepted server-side socket
is never CONNECTING, so no throw path exists here. -/
def sendTw (s : Session) (m : TwMsg) : Session :=
  if s.wsOpen then { s with twSent := s.twSent ++ [m] }
  else s

/-- `sendMark` (src/index.js lines 175-179): no-op before `start`; else
send a mark frame and push a marker token. -/
def sendMark (s : Session) : Session :=
  match s.streamSid with
  | none => s
  | some _ => let s1 := sendTw s TwMsg.mark
              { s1 with markQueue := s1.markQueue ++ [()] }

/-- `clearTurnState` (src/index.js lines 140-143). -/
def clearTurnState (s : Session) : Session :=
  { s with captureStartMs := none, bufferedMs := 0 }

/-- `requestResponse` (src/index.js lines 182-202) up to the point where
the `COMMIT_DELAY_MS` flush task is scheduled; the later firing of that
task is the separate `flushCommit`. -/
def requestResponse (s : Session) : Session :=
  if s.awaitingResponse then s
  else
    let buffered : Int :=
      match s.captureStartMs with
      | none => 0
      | some c => max 0 (s.latestMediaTimestamp - c)
    let s1 := { s with bufferedMs := buffered }
    if buffered < MIN_BUFFER_MS then s1
    else { s1 with awaitingResponse := true, pendingCommit := true }

/-- Body of the flush task scheduled by `requestResponse` (src/index.js
lines 196-201): send `input_audio_buffer.commit` then `response.create`,
then clear the turn window.  The sends have no readyState guard; if the
first one throws (CONNECTING socket), the exception aborts the rest of
the timer callback, so neither the second send nor `clearTurnState`
runs. -/
def flushCommit (s : Session) : Session :=
  let s1 := sendAi s AiMsg.commit
  if s1.crashed then s1
  else
    let s2 := sendAi s1 AiMsg.responseCreate
    { (clearTurnState s2) with pendingCommit := false }

/-- `initializeSession` (src/index.js lines 158-173): the one-time
`session.update` configuration frame. -/
def initSession (s : Session) : Session :=
  sendAi s AiMsg.sessionUpdate

/-- Handler for `response.output_audio.delta` (src/index.js lines
223-238).  The event's `item_id` is optional because the code guards on
its presence. -/
def handleDelta (s : Session) (itemId : Option Nat) (payload : List Nat) : Session :=
  let s1 := { s with awaitingResponse := false }
  let s2 := sendTw s1 (TwMsg.media payload)
  let s3 :=
    match s2.responseStartTimestampTwilio with
    | none => { s2 with responseStartTimestampTwilio := some s2.latestMediaTimestamp }
    | some _ => s2
  let s4 :=
    match itemId with
    | some id => { s3 with lastAssistantItem := some id }
    | none => s3
  sendMark s4

/-- Handler for `input_audio_buffer.speech_started` (src/index.js lines
245-260): during active playback, truncate the assistant reply at the
elapsed playback time, clear Twilio's buffered audio, and reset all
playback-tracking state.  This handler runs inside the OpenAI socket's
message dispatch, so that socket is OPEN while it runs and the truncate
send cannot take the CONNECTING throw path; the handler keeps the code's
linear control flow. -/
def handleSpeechStarted (s : Session) : Session :=
  match s.markQueue, s.responseStartTimestampTwilio, s.lastAssistantItem with
  | _ :: _, some rs, some item =>
      let elapsed := max 0 (s.latestMediaTimestamp - rs)
      let s1 := sendAi s (AiMsg.truncate item elapsed)
      let s2 := sendTw s1 TwMsg.clear
      { s2 with markQueue := [], lastAssistantItem := none,
                responseStartTimestampTwilio := none }
  | _, _, _ => s

/-- Handler for a Twilio `media` frame (src/index.js lines 293-311):
record the media clock, open the capture window on the first frame,
recompute `bufferedMs`, decode and append the audio when the OpenAI
socket is open, and rearm the silence timer. -/
def handleMedia (s : Session) (ts : Int) (payload : List Nat) : Session :=
  let c : Int :=
    match s.captureStartMs with
    | none => ts
    | some c0 => c0
  let s1 := { s with latestMediaTimestamp := ts, captureStartMs := some c,
                     bufferedMs := max 0 (ts - c) }
  let s2 :=
    if s1.aiOpen then sendAi s1 (AiMsg.append (mulawBase64ToPcm16Base64 payload))
    else s1
  { s2 with silenceTimerArmed := true }

/-- The session's event alphabet: Twilio frames (`start`, `media`,
`mark`, `stop`), OpenAI events (`delta`, `done`, `speechStarted`,
`speechStopped`, socket open/close), the silence timer firing, the flush
task firing, and the Twilio socket closing. -/
inductive Event where
  | start (sid : Nat) : Event
  | media (ts : Int) (payload : List Nat) : Event
  | mark : Event
  | stop : Event
  | timerFire : Event
  | speechStopped : Event
  | speechStarted : Event
  | delta (itemId : Option Nat) (payload : List Nat) : Event
  | done : Event
  | flushFire : Event
  | aiOpenEvt : Event
  | wsClose : Event
  | aiClose : Event
  deriving DecidableEq

/-- One serialized dispatch of an event on the session, following the
handlers in src/index.js. -/
def step (s : Session) (e : Event) : Session :=
  match e with
  | Event.start sid =>
      { s with streamSid := some sid, captureStartMs := none, bufferedMs := 0,
               awaitingResponse := false, silenceTimerArmed := true }
  | Event.media ts payload => handleMedia s ts payload
  | Event.mark => { s with markQueue := s.markQueue.tail }
  | Event.stop => requestResponse { s with silenceTimerArmed := false }
  | Event.timerFire =>
      if s.silenceTimerArmed then requestResponse { s with silenceTimerArmed := false }
      else s
  | Event.speechStopped => requestResponse s
  | Event.speechStarted => handleSpeechStarted s
  | Event.delta itemId payload => handleDelta s itemId payload
  | Event.done => { s with awaitingResponse := false }
  | Event.flushFire => if s.pendingCommit then flushCommit s else s
  | Event.aiOpenEvt => initSession { s with aiOpen := true, aiConnecting := false }
  | Event.wsClose =>
      let s1 := { s with wsOpen := false }
      if s1.aiOpen then { s1 with aiOpen := false, aiConnecting := false } else s1
  | Event.aiClose => { s with aiOpen := false, aiConnecting := false }

/-- A trace of events, applied in order. -/
def run (s : Session) (es : List Event) : Session :=
  es.foldl step s

/-- True unless the event is a `response.output_audio.delta` frame with no
`item_id`; the AI-peer protocol always attaches an `item_id` to audio
deltas, which this predicate expresses for traces. -/
def deltaHasItem : Event → Bool
  | Event.delta none _ => false
  | _ => true

/-- The event trace of a sequence of inbound `media` frames, each given as
(timestamp, payload). -/
def mediaEvents (frames : List (Int × List Nat)) : List Event :=
  frames.map (fun f => Event.media f.1 f.2)

/-- Unfolding of the frame-level decoder on a cons cell. -/
theorem mulawFrame_cons (b : Nat) (bs : List Nat) :
    mulawBase64ToPcm16Base64 (b :: bs)
      = pcm16leBytes (mulawByteToPcm16 b) ++ mulawBase64ToPcm16Base64 bs := by
  simp [mulawBase64ToPcm16Base64]

/-- Length of the frame-level decoder's output: two bytes per input byte. -/
theorem mulawFrame_length (mu : List Nat) :
    (mulawBase64ToPcm16Base64 mu).length = 2 * mu.length := by
  induction mu with
  | nil => rfl
  | cons b bs ih =>
      rw [mulawFrame_cons, List.length_append, ih]
      simp only [pcm16leBytes, List.length_cons, List.length_nil, List.length_cons]
      omega

/-- The two output bytes at offset `2*i` are the little-endian encoding of
input byte `i`'s decoded sample. -/
theorem mulawFrame_layout (mu : List Nat) :
    ∀ i, i < mu.length →
      ((mulawBase64ToPcm16Base64 mu).drop (2 * i)).take 2
        = pcm16leBytes (mulawByteToPcm16 (mu.getD i 0)) := by
  induction mu with
  | nil => intro i h; simp at h
  | cons b bs ih =>
      intro i h
      rw [mulawFrame_cons]
      cases i with
      | zero =>
          simp only [Nat.mul_zero, List.drop_zero, List.getD_cons_zero]
          simp [pcm16leBytes]
      | succ j =>
          have h2 : 2 * (j + 1) = 2 * j + 1 + 1 := by ring
          rw [h2, List.getD_cons_succ]
          simp only [pcm16leBytes, List.cons_append, List.nil_append,
            List.drop_succ_cons]
          simpa only [pcm16leBytes] using ih j (Nat.lt_of_succ_lt_succ h)

set_option maxRecDepth 8192 in
/-- C2: for every input byte `b < 256`, `mulawByteToPcm16` returns exactly
the value obtained by inverting all bits, splitting sign/exponent/mantissa,
computing `((mantissa << 4) + 8) << (exponent + 3)` minus the bias 132,
negating when the sign bit is set, and clamping to `[-32768, 32767]`. -/
theorem claim_C2_mulaw_decode_bit_exact :
    ∀ b : Nat, b < 256 → mulawByteToPcm16 b = specMulawDecode b := by
  decide

/-- Witness for C2 at the concrete byte 255. -/
theorem claim_C2_witness : mulawByteToPcm16 255 = specMulawDecode 255 :=
  claim_C2_mulaw_decode_bit_exact 255 (by decide)

/-- C3: the decoder is a pure function, but its reference-table boundary
values diverge from the G.711 μ-law table: the code decodes byte `0xFF`
to `-68` (the table gives `0`) and byte `0x00` to `-32768` (clamped; the
table gives `-32124`).  The formula shifts by `exponent + 3` over
`(mantissa << 4) + 8` where the standard table is generated by a shift of
`exponent` over `(mantissa << 3) + 132`. -/
theorem claim_C3_boundary_divergence :
    mulawByteToPcm16 0xFF = -68 ∧ mulawByteToPcm16 0x00 = -32768 := by
  decide

/-- C10: the frame-level decoder never fails or truncates: its output has
exactly `2 * n` bytes for an `n`-byte input, and for each index
`i < n` the two bytes at offset `2*i` are the little-endian packing of the
decoded 16-bit sample of input byte `i`. -/
theorem claim_C10_frame_decoder_layout (mu : List Nat) :
    (mulawBase64ToPcm16Base64 mu).length = 2 * mu.length ∧
    ∀ i, i < mu.length →
      ((mulawBase64ToPcm16Base64 mu).drop (2 * i)).take 2
        = pcm16leBytes (mulawByteToPcm16 (mu.getD i 0)) :=
  ⟨mulawFrame_length mu, mulawFrame_layout mu⟩

/-- Witness for C10 on the concrete frame `[255, 0]` at index 1. -/
theorem claim_C10_witness :
    (mulawBase64ToPcm16Base64 [255, 0]).length = 2 * ([255, 0] : List Nat).length ∧
    ((mulawBase64ToPcm16Base64 [255, 0]).drop (2 * 1)).take 2
      = pcm16leBytes (mulawByteToPcm16 (([255, 0] : List Nat).getD 1 0)) :=
  ⟨(claim_C10_frame_decoder_layout [255, 0]).1,
   (claim_C10_frame_decoder_layout [255, 0]).2 1 (by decide)⟩

/-- Fields of the session untouched by `sendAi` (only `aiSent`/`errLog`
change). -/
@[simp] theorem sendAi_state (s : Session) (m : AiMsg) :
    (sendAi s m).streamSid = s.streamSid ∧
    (sendAi s m).latestMediaTimestamp = s.latestMediaTimestamp ∧
    (sendAi s m).captureStartMs = s.captureStartMs ∧
    (sendAi s m).bufferedMs = s.bufferedMs ∧
    (sendAi s m).awaitingResponse = s.awaitingResponse ∧
    (sendAi s m).silenceTimerArmed = s.silenceTimerArmed ∧
    (sendAi s m).pendingCommit = s.pendingCommit ∧
    (sendAi s m).lastAssistantItem = s.lastAssistantItem ∧
    (sendAi s m).responseStartTimestampTwilio = s.responseStartTimestampTwilio ∧
    (sendAi s m).markQueue = s.markQueue ∧
    (sendAi s m).aiOpen = s.aiOpen ∧
    (sendAi s m).aiConnecting = s.aiConnecting ∧
    (sendAi s m).wsOpen = s.wsOpen ∧
    (sendAi s m).twSent = s.twSent := by
  unfold sendAi; split <;> (try split) <;> simp

/-- Fields of the session untouched by `sendTw` (only `twSent`/`errLog`
change). -/
@[simp] theorem sendTw_state (s : Session) (m : TwMsg) :
    (sendTw s m).streamSid = s.streamSid ∧
    (sendTw s m).latestMediaTimestamp = s.latestMediaTimestamp ∧
    (sendTw s m).captureStartMs = s.captureStartMs ∧
    (sendTw s m).bufferedMs = s.bufferedMs ∧
    (sendTw s m).awaitingResponse = s.awaitingResponse ∧
    (sendTw s m).silenceTimerArmed = s.silenceTimerArmed ∧
    (sendTw s m).pendingCommit = s.pendingCommit ∧
    (sendTw s m).lastAssistantItem = s.lastAssistantItem ∧
    (sendTw s m).responseStartTimestampTwilio = s.responseStartTimestampTwilio ∧
    (sendTw s m).markQueue = s.markQueue ∧
    (sendTw s m).aiOpen = s.aiOpen ∧
    (sendTw s m).wsOpen = s.wsOpen ∧
    (sendTw s m).aiSent = s.aiSent := by
  unfold sendTw; split <;> simp

/-- Fields of the session untouched by `sendMark` (only `markQueue`,
`twSent`, `errLog` change). -/
@[simp] theorem sendMark_state (s : Session) :
    (sendMark s).streamSid = s.streamSid ∧
    (sendMark s).latestMediaTimestamp = s.latestMediaTimestamp ∧
    (sendMark s).captureStartMs = s.captureStartMs ∧
    (sendMark s).bufferedMs = s.bufferedMs ∧
    (sendMark s).awaitingResponse = s.awaitingResponse ∧
    (sendMark s).silenceTimerArmed = s.silenceTimerArmed ∧
    (sendMark s).pendingCommit = s.pendingCommit ∧
    (sendMark s).lastAssistantItem = s.lastAssistantItem ∧
    (sendMark s).responseStartTimestampTwilio = s.responseStartTimestampTwilio ∧
    (sendMark s).aiOpen = s.aiOpen ∧
    (sendMark s).wsOpen = s.wsOpen ∧
    (sendMark s).aiSent = s.aiSent := by
  unfold sendMark; split <;> simp

/-- Fields of the session untouched by `requestResponse` (only
`bufferedMs`, `awaitingResponse`, `pendingCommit` change; nothing is
sent by the guard-and-schedule phase). -/
@[simp] theorem requestResponse_state (s : Session) :
    (requestResponse s).streamSid = s.streamSid ∧
    (requestResponse s).latestMediaTimestamp = s.latestMediaTimestamp ∧
    (requestResponse s).captureStartMs = s.captureStartMs ∧
    (requestResponse s).silenceTimerArmed = s.silenceTimerArmed ∧
    (requestResponse s).lastAssistantItem = s.lastAssistantItem ∧
    (requestResponse s).responseStartTimestampTwilio = s.responseStartTimestampTwilio ∧
    (requestResponse s).markQueue = s.markQueue ∧
    (requestResponse s).aiOpen = s.aiOpen ∧
    (requestResponse s).wsOpen = s.wsOpen ∧
    (requestResponse s).aiSent = s.aiSent ∧
    (requestResponse s).twSent = s.twSent ∧
    (requestResponse s).aiConnecting = s.aiConnecting ∧
    (requestResponse s).crashed = s.crashed := by
  unfold requestResponse
  split
  · simp
  · split <;> (simp only []; split <;> simp)

/-- Fields of the session untouched by `flushCommit` in both its normal
and its aborted (throwing) run. -/
@[simp] theorem flushCommit_state (s : Session) :
    (flushCommit s).streamSid = s.streamSid ∧
    (flushCommit s).latestMediaTimestamp = s.latestMediaTimestamp ∧
    (flushCommit s).awaitingResponse = s.awaitingResponse ∧
    (flushCommit s).silenceTimerArmed = s.silenceTimerArmed ∧
    (flushCommit s).lastAssistantItem = s.lastAssistantItem ∧
    (flushCommit s).responseStartTimestampTwilio = s.responseStartTimestampTwilio ∧
    (flushCommit s).markQueue = s.markQueue ∧
    (flushCommit s).aiOpen = s.aiOpen ∧
    (flushCommit s).wsOpen = s.wsOpen ∧
    (flushCommit s).twSent = s.twSent ∧
    (flushCommit s).aiConnecting = s.aiConnecting := by
  unfold flushCommit clearTurnState
  simp only []
  split <;> simp

/-- Fields of the session untouched by `handleMedia`, and the fields it
always sets. -/
@[simp] theorem handleMedia_state (s : Session) (ts : Int) (p : List Nat) :
    (handleMedia s ts p).streamSid = s.streamSid ∧
    (handleMedia s ts p).awaitingResponse = s.awaitingResponse ∧
    (handleMedia s ts p).pendingCommit = s.pendingCommit ∧
    (handleMedia s ts p).lastAssistantItem = s.lastAssistantItem ∧
    (handleMedia s ts p).responseStartTimestampTwilio = s.responseStartTimestampTwilio ∧
    (handleMedia s ts p).markQueue = s.markQueue ∧
    (handleMedia s ts p).aiOpen = s.aiOpen ∧
    (handleMedia s ts p).wsOpen = s.wsOpen ∧
    (handleMedia s ts p).twSent = s.twSent ∧
    (handleMedia s ts p).silenceTimerArmed = true ∧
    (handleMedia s ts p).latestMediaTimestamp = ts := by
  unfold handleMedia
  split <;> (simp only []; split <;> simp)

/-- Fields of the session untouched by `handleDelta`, and the flag it
always clears. -/
@[simp] theorem handleDelta_state (s : Session) (i : Option Nat) (p : List Nat) :
    (handleDelta s i p).streamSid = s.streamSid ∧
    (handleDelta s i p).latestMediaTimestamp = s.latestMediaTimestamp ∧
    (handleDelta s i p).captureStartMs = s.captureStartMs ∧
    (handleDelta s i p).bufferedMs = s.bufferedMs ∧
    (handleDelta s i p).silenceTimerArmed = s.silenceTimerArmed ∧
    (handleDelta s i p).pendingCommit = s.pendingCommit ∧
    (handleDelta s i p).aiOpen = s.aiOpen ∧
    (handleDelta s i p).wsOpen = s.wsOpen ∧
    (handleDelta s i p).aiSent = s.aiSent ∧
    (handleDelta s i p).awaitingResponse = false := by
  unfold handleDelta
  split <;> (simp only []; split <;> simp)

/-- Fields of the session untouched by `handleSpeechStarted`. -/
@[simp] theorem handleSpeechStarted_state (s : Session) :
    (handleSpeechStarted s).streamSid = s.streamSid ∧
    (handleSpeechStarted s).latestMediaTimestamp = s.latestMediaTimestamp ∧
    (handleSpeechStarted s).captureStartMs = s.captureStartMs ∧
    (handleSpeechStarted s).bufferedMs = s.bufferedMs ∧
    (handleSpeechStarted s).awaitingResponse = s.awaitingResponse ∧
    (handleSpeechStarted s).silenceTimerArmed = s.silenceTimerArmed ∧
    (handleSpeechStarted s).pendingCommit = s.pendingCommit ∧
    (handleSpeechStarted s).aiOpen = s.aiOpen ∧
    (handleSpeechStarted s).wsOpen = s.wsOpen := by
  unfold handleSpeechStarted
  split <;> simp

/-- The commit guard: `requestResponse` invoked with `awaitingResponse`
set returns the state unchanged and performs no send. -/
theorem requestResponse_id_of_awaiting (s : Session)
    (h : s.awaitingResponse = true) : requestResponse s = s := by
  unfold requestResponse
  simp [h]

/-- C1: at most one commit+request pair is outstanding: while
`awaitingResponse` is true every trigger of `requestResponse` (silence
timer, peer speech-stopped, explicit stop) sends nothing and changes no
state, and among the session's events only a reply-audio fragment
(`response.output_audio.delta`) or the reply-complete signal
(`response.done`) clears `awaitingResponse` (the Twilio `start` event,
which initialises a new stream, is outside the claim's trigger set). -/
theorem claim_C1_at_most_one_outstanding :
    (∀ s : Session, s.awaitingResponse = true → requestResponse s = s) ∧
    (∀ (s : Session) (e : Event), (∀ sid, e ≠ Event.start sid) →
      s.awaitingResponse = true → (step s e).awaitingResponse = false →
      e = Event.done ∨ ∃ i p, e = Event.delta i p) := by
  constructor
  · exact requestResponse_id_of_awaiting
  · intro s e hne h hpost
    cases e with
    | start sid => exact absurd rfl (hne sid)
    | done => exact Or.inl rfl
    | delta i p => exact Or.inr ⟨i, p, rfl⟩
    | media ts p =>
        exfalso
        simp only [step] at hpost
        rw [(handleMedia_state s ts p).2.1, h] at hpost
        exact Bool.noConfusion hpost
    | mark =>
        exfalso
        simp only [step] at hpost
        rw [h] at hpost
        exact Bool.noConfusion hpost
    | stop =>
        exfalso
        simp only [step] at hpost
        rw [requestResponse_id_of_awaiting { s with silenceTimerArmed := false } h] at hpost
        simp [h] at hpost
    | timerFire =>
        exfalso
        simp only [step] at hpost
        split at hpost
        · rw [requestResponse_id_of_awaiting { s with silenceTimerArmed := false } h] at hpost
          simp [h] at hpost
        · rw [h] at hpost
          exact Bool.noConfusion hpost
    | speechStopped =>
        exfalso
        simp only [step] at hpost
        rw [requestResponse_id_of_awaiting _ h, h] at hpost
        exact Bool.noConfusion hpost
    | speechStarted =>
        exfalso
        simp only [step] at hpost
        rw [(handleSpeechStarted_state s).2.2.2.2.1, h] at hpost
        exact Bool.noConfusion hpost
    | flushFire =>
        exfalso
        simp only [step] at hpost
        split at hpost
        · rw [(flushCommit_state s).2.2.1, h] at hpost
          exact Bool.noConfusion hpost
        · rw [h] at hpost
          exact Bool.noConfusion hpost
    | aiOpenEvt =>
        exfalso
        simp only [step, initSession] at hpost
        rw [(sendAi_state _ _).2.2.2.2.1] at hpost
        rw [show ({ s with aiOpen := true, aiConnecting := false } : Session).awaitingResponse
              = s.awaitingResponse from rfl, h] at hpost
        exact Bool.noConfusion hpost
    | wsClose =>
        exfalso
        simp only [step] at hpost
        split at hpost <;> (rw [h] at hpost; exact Bool.noConfusion hpost)
    | aiClose =>
        exfalso
        simp only [step] at hpost
        rw [h] at hpost
        exact Bool.noConfusion hpost

/-- Witness for C1: a session already awaiting a reply absorbs a fresh
trigger unchanged, and `response.done` is one of the permitted clearing
events. -/
theorem claim_C1_witness :
    requestResponse { initConn with awaitingResponse := true }
        = { initConn with awaitingResponse := true } ∧
    (Event.done = Event.done ∨ ∃ i p, Event.done = Event.delta i p) :=
  ⟨claim_C1_at_most_one_outstanding.1 { initConn with awaitingResponse := true } rfl,
   claim_C1_at_most_one_outstanding.2 { initConn with awaitingResponse := true }
     Event.done (fun _ hcontra => Event.noConfusion hcontra) rfl rfl⟩

/-- C5: whenever the interruption handler fires during active playback
(`markQueue` non-empty, `responseStartTimestampTwilio` and
`lastAssistantItem` set), the `audio_end_ms` of the single truncate
directive it sends is non-negative and equals the media clock minus the
reply start time; the clock hypothesis `rs ≤ latestMediaTimestamp` is the
spec's monotone media clock (`replyStartMs` was recorded from an earlier
clock value). -/
theorem claim_C5_truncate_elapsed (s : Session) (u : Unit) (q : List Unit)
    (rs : Int) (item : Nat)
    (hq : s.markQueue = u :: q)
    (hrs : s.responseStartTimestampTwilio = some rs)
    (hitem : s.lastAssistantItem = some item)
    (hai : s.aiOpen = true)
    (hclock : rs ≤ s.latestMediaTimestamp) :
    (step s Event.speechStarted).aiSent
      = s.aiSent ++ [AiMsg.truncate item (s.latestMediaTimestamp - rs)] ∧
    0 ≤ s.latestMediaTimestamp - rs := by
  have hmax : max 0 (s.latestMediaTimestamp - rs) = s.latestMediaTimestamp - rs :=
    max_eq_right (by omega)
  constructor
  · simp only [step, handleSpeechStarted, hq, hrs, hitem, hmax]
    rw [(sendTw_state _ _).2.2.2.2.2.2.2.2.2.2.2.2]
    unfold sendAi
    simp [hai]
  · omega

/-- Witness for C5 at a concrete interrupted-playback state. -/
theorem claim_C5_witness :
    (step { initConn with markQueue := [()], responseStartTimestampTwilio := some 40,
                          lastAssistantItem := some 3, latestMediaTimestamp := 300,
                          aiOpen := true } Event.speechStarted).aiSent
      = ({ initConn with markQueue := [()], responseStartTimestampTwilio := some 40,
                         lastAssistantItem := some 3, latestMediaTimestamp := 300,
                         aiOpen := true } : Session).aiSent
        ++ [AiMsg.truncate 3 ((300 : Int) - 40)] ∧
    (0 : Int) ≤ (300 : Int) - 40 :=
  claim_C5_truncate_elapsed _ () [] 40 3 rfl rfl rfl rfl (by decide)

/-- C6: handling `speech_started` during active playback atomically resets
the playback state — `markQueue` empty, `lastAssistantItem` and
`responseStartTimestampTwilio` unset — and sends exactly one truncate
directive to the AI peer and exactly one clear directive to the telephony
peer. -/
theorem claim_C6_interruption_atomic_reset (s : Session) (u : Unit) (q : List Unit)
    (rs : Int) (item : Nat)
    (hq : s.markQueue = u :: q)
    (hrs : s.responseStartTimestampTwilio = some rs)
    (hitem : s.lastAssistantItem = some item)
    (hai : s.aiOpen = true)
    (hws : s.wsOpen = true) :
    (step s Event.speechStarted).markQueue = [] ∧
    (step s Event.speechStarted).lastAssistantItem = none ∧
    (step s Event.speechStarted).responseStartTimestampTwilio = none ∧
    (step s Event.speechStarted).aiSent
      = s.aiSent ++ [AiMsg.truncate item (max 0 (s.latestMediaTimestamp - rs))] ∧
    (step s Event.speechStarted).twSent = s.twSent ++ [TwMsg.clear] := by
  simp only [step, handleSpeechStarted, hq, hrs, hitem]
  refine ⟨by trivial, by trivial, by trivial, ?_, ?_⟩
  · rw [(sendTw_state _ _).2.2.2.2.2.2.2.2.2.2.2.2]
    unfold sendAi
    simp [hai]
  · unfold sendTw sendAi
    simp [hai, hws]

/-- Witness for C6 at a concrete interrupted-playback state. -/
theorem claim_C6_witness :
    (step { initConn with markQueue := [()], responseStartTimestampTwilio := some 40,
                          lastAssistantItem := some 3, latestMediaTimestamp := 300,
                          aiOpen := true } Event.speechStarted).markQueue = [] ∧
    (step { initConn with markQueue := [()], responseStartTimestampTwilio := some 40,
                          lastAssistantItem := some 3, latestMediaTimestamp := 300,
                          aiOpen := true } Event.speechStarted).lastAssistantItem = none ∧
    (step { initConn with markQueue := [()], responseStartTimestampTwilio := some 40,
                          lastAssistantItem := some 3, latestMediaTimestamp := 300,
                          aiOpen := true } Event.speechStarted).responseStartTimestampTwilio
      = none ∧
    (step { initConn with markQueue := [()], responseStartTimestampTwilio := some 40,
                          lastAssistantItem := some 3, latestMediaTimestamp := 300,
                          aiOpen := true } Event.speechStarted).aiSent
      = ({ initConn with markQueue := [()], responseStartTimestampTwilio := some 40,
                         lastAssistantItem := some 3, latestMediaTimestamp := 300,
                         aiOpen := true } : Session).aiSent
        ++ [AiMsg.truncate 3 (max 0 ((300 : Int) - 40))] ∧
    (step { initConn with markQueue := [()], responseStartTimestampTwilio := some 40,
                          lastAssistantItem := some 3, latestMediaTimestamp := 300,
                          aiOpen := true } Event.speechStarted).twSent
      = ({ initConn with markQueue := [()], responseStartTimestampTwilio := some 40,
                         lastAssistantItem := some 3, latestMediaTimestamp := 300,
                         aiOpen := true } : Session).twSent ++ [TwMsg.clear] :=
  claim_C6_interruption_atomic_reset _ () [] 40 3 rfl rfl rfl rfl rfl

/-- C8 counterexample: from a live session (AI socket open, silence timer
armed), the AI peer's socket closing leaves the telephony socket open —
the handler only logs — and the telephony peer's socket closing leaves
the silence timer armed.  The claim's "cancels its silence timer and
closes the other peer's connection" fails on both counts. -/
theorem claim_C8_counterexample :
    (step { initConn with aiOpen := true, aiConnecting := false, silenceTimerArmed := true }
        Event.aiClose).wsOpen = true ∧
    (step { initConn with aiOpen := true, aiConnecting := false, silenceTimerArmed := true }
        Event.wsClose).silenceTimerArmed = true := by
  decide

/-- C8 amended: on the telephony peer's disconnect the session closes the
AI peer's connection if still open, but the silence timer is not
cancelled; on the AI peer's disconnect the handler only logs — no state
changes besides the socket itself being closed (both readyState flags
cleared), and in particular the telephony peer's socket is not closed. -/
theorem claim_C8_amended (s : Session) :
    (step s Event.wsClose).aiOpen = false ∧
    (step s Event.wsClose).wsOpen = false ∧
    (step s Event.wsClose).silenceTimerArmed = s.silenceTimerArmed ∧
    step s Event.aiClose = { s with aiOpen := false, aiConnecting := false } := by
  refine ⟨?_, ?_, ?_, rfl⟩ <;>
    (simp only [step]; split <;> simp_all)

/-- C9: evaluation of the unguarded flush task (src/index.js lines
196-201) at the claim's failing inputs.  First input: the task fires while
the OpenAI socket is still CONNECTING (a commit scheduled by a `stop` or
silence trigger before the handshake completed; `initConn` with a pending
commit) — `send` throws synchronously and the exception escapes the timer
callback uncaught, contradicting the claim's "no exception propagates
past the task"; nothing is sent and the turn state is not even cleared.
Second input: the task fires after the socket is closed (session torn
down) — the frames are dropped, the session is not torn down further, but
the drop is silent: the `ws` library delivers no error when `send` has no
callback, so nothing is logged, contradicting the claim's "dropped and
logged". -/
theorem claim_C9_flush_unsafe :
    (step { initConn with pendingCommit := true } Event.flushFire).crashed = true ∧
    (step { initConn with pendingCommit := true } Event.flushFire).aiSent = [] ∧
    (step { initConn with pendingCommit := true } Event.flushFire).pendingCommit = true ∧
    (step { initConn with pendingCommit := true, aiConnecting := false }
        Event.flushFire).crashed = false ∧
    (step { initConn with pendingCommit := true, aiConnecting := false }
        Event.flushFire).aiSent = [] ∧
    (step { initConn with pendingCommit := true, aiConnecting := false }
        Event.flushFire).wsOpen = true ∧
    (step { initConn with pendingCommit := true, aiConnecting := false }
        Event.flushFire).pendingCommit = false := by
  decide

/-- Setting the assistant item on a delta that carries an `item_id`. -/
theorem handleDelta_item (s : Session) (id : Nat) (p : List Nat) :
    (handleDelta s (some id) p).lastAssistantItem = some id := by
  simp [handleDelta]

/-- One step preserves the marker/item invariant, provided any delta event
carries an `item_id`. -/
theorem step_preserves_markInv (s : Session) (e : Event)
    (hd : deltaHasItem e = true)
    (hinv : s.markQueue ≠ [] → s.lastAssistantItem ≠ none) :
    (step s e).markQueue ≠ [] → (step s e).lastAssistantItem ≠ none := by
  cases e with
  | start sid => simpa [step] using hinv
  | media ts p => simpa [step] using hinv
  | mark =>
      intro hq
      simp only [step] at hq ⊢
      exact hinv (fun hc => by simp [hc] at hq)
  | stop => simpa [step] using hinv
  | timerFire =>
      simp only [step]
      split
      · simpa using hinv
      · exact hinv
  | speechStopped => simpa [step] using hinv
  | speechStarted =>
      simp only [step]
      unfold handleSpeechStarted
      split
      · intro hq
        simp at hq
      · exact hinv
  | delta i p =>
      cases i with
      | none => simp [deltaHasItem] at hd
      | some id =>
          intro _
          simp only [step, handleDelta_item]
          exact Option.some_ne_none id
  | done => simpa [step] using hinv
  | flushFire =>
      simp only [step]
      split
      · simpa using hinv
      · exact hinv
  | aiOpenEvt => simpa [step, initSession] using hinv
  | wsClose =>
      simp only [step]
      split
      · simpa using hinv
      · simpa using hinv
  | aiClose => simpa [step] using hinv

/-- A run of item-carrying events preserves the marker/item invariant. -/
theorem run_preserves_markInv (es : List Event) : ∀ s : Session,
    (∀ e ∈ es, deltaHasItem e = true) →
    (s.markQueue ≠ [] → s.lastAssistantItem ≠ none) →
    ((run s es).markQueue ≠ [] → (run s es).lastAssistantItem ≠ none) := by
  induction es with
  | nil => intro s _ hinv; exact hinv
  | cons e es ih =>
      intro s hd hinv
      exact ih (step s e) (fun x hx => hd x (List.mem_cons_of_mem _ hx))
        (step_preserves_markInv s e (hd e (List.mem_cons_self _ _)) hinv)

/-- C7: in every session state reachable by a trace whose delta events
carry an `item_id`, `markQueue` is non-empty only while
`lastAssistantItem` is set; and the item is only ever cleared by the step
that simultaneously empties the queue and unsets the reply start
(delivery acknowledgments consume markers one at a time but never unset
the item). -/
theorem claim_C7_markers_only_with_item :
    (∀ es : List Event, (∀ e ∈ es, deltaHasItem e = true) →
      (run initConn es).markQueue ≠ [] → (run initConn es).lastAssistantItem ≠ none) ∧
    (∀ (s : Session) (e : Event),
      s.lastAssistantItem ≠ none → (step s e).lastAssistantItem = none →
      (step s e).markQueue = [] ∧ (step s e).responseStartTimestampTwilio = none) := by
  constructor
  · intro es hd
    exact run_preserves_markInv es initConn hd (fun h => absurd rfl h)
  · intro s e hsome hpost
    cases e with
    | start sid => exact absurd hpost hsome
    | media ts p =>
        simp only [step] at hpost
        rw [(handleMedia_state s ts p).2.2.2.1] at hpost
        exact absurd hpost hsome
    | mark => exact absurd hpost hsome
    | stop =>
        simp only [step] at hpost
        rw [(requestResponse_state _).2.2.2.2.1] at hpost
        exact absurd hpost hsome
    | timerFire =>
        simp only [step] at hpost
        split at hpost
        · rw [(requestResponse_state _).2.2.2.2.1] at hpost
          exact absurd hpost hsome
        · exact absurd hpost hsome
    | speechStopped =>
        simp only [step] at hpost
        rw [(requestResponse_state _).2.2.2.2.1] at hpost
        exact absurd hpost hsome
    | speechStarted =>
        simp only [step] at hpost ⊢
        unfold handleSpeechStarted at hpost ⊢
        split at hpost
        · constructor <;> rfl
        · exact absurd hpost hsome
    | delta i p =>
        cases i with
        | none =>
            have hkeep : (handleDelta s none p).lastAssistantItem = s.lastAssistantItem := by
              simp only [handleDelta]
              split <;> simp
            simp only [step] at hpost
            rw [hkeep] at hpost
            exact absurd hpost hsome
        | some id =>
            simp only [step, handleDelta_item] at hpost
            exact absurd hpost (Option.some_ne_none id)
    | done => exact absurd hpost hsome
    | flushFire =>
        simp only [step] at hpost
        split at hpost
        · rw [(flushCommit_state _).2.2.2.2.1] at hpost
          exact absurd hpost hsome
        · exact absurd hpost hsome
    | aiOpenEvt =>
        simp only [step, initSession] at hpost
        rw [(sendAi_state _ _).2.2.2.2.2.2.2.1] at hpost
        exact absurd hpost hsome
    | wsClose =>
        simp only [step] at hpost
        split at hpost
        · exact absurd hpost hsome
        · exact absurd hpost hsome
    | aiClose => exact absurd hpost hsome

/-- Witness for C7: a concrete trace (stream start, AI socket open, one
item-carrying delta) reaches a state with a non-empty queue and a set
item, and a concrete interruption clears queue, item and reply start
together. -/
theorem claim_C7_witness :
    (run initConn [Event.start 1, Event.aiOpenEvt, Event.delta (some 2) [7]]).lastAssistantItem
        ≠ none ∧
    ((step { initConn with markQueue := [()], lastAssistantItem := some 5,
                           responseStartTimestampTwilio := some 0 }
        Event.speechStarted).markQueue = [] ∧
     (step { initConn with markQueue := [()], lastAssistantItem := some 5,
                           responseStartTimestampTwilio := some 0 }
        Event.speechStarted).responseStartTimestampTwilio = none) :=
  ⟨claim_C7_markers_only_with_item.1 [Event.start 1, Event.aiOpenEvt, Event.delta (some 2) [7]]
      (by decide) (by decide),
   claim_C7_markers_only_with_item.2 _ Event.speechStarted (by decide) (by decide)⟩

/-- A media frame arriving while the capture window is open keeps the
window's start and recomputes `bufferedMs` from the frame timestamp. -/
theorem handleMedia_capture_some (s : Session) (ts : Int) (p : List Nat) (c : Int)
    (h : s.captureStartMs = some c) :
    (handleMedia s ts p).captureStartMs = some c ∧
    (handleMedia s ts p).bufferedMs = max 0 (ts - c) := by
  unfold handleMedia
  simp only [h]
  split <;> simp

/-- The first media frame of a turn opens the capture window at its own
timestamp, with zero buffered audio. -/
theorem handleMedia_capture_none (s : Session) (ts : Int) (p : List Nat)
    (h : s.captureStartMs = none) :
    (handleMedia s ts p).captureStartMs = some ts ∧
    (handleMedia s ts p).bufferedMs = 0 := by
  unfold handleMedia
  simp only [h]
  split <;> simp

/-- Running media frames with non-decreasing timestamps from a state whose
capture window is open at `c` keeps the window open at `c`, keeps
`bufferedMs = latestMediaTimestamp - c`, and makes the buffered amount
non-decreasing along the run. -/
theorem mediaRun_master (frames : List (Int × List Nat)) : ∀ (s : Session) (c : Int),
    s.captureStartMs = some c →
    c ≤ s.latestMediaTimestamp →
    s.bufferedMs = s.latestMediaTimestamp - c →
    List.Chain' (· ≤ ·) (s.latestMediaTimestamp :: frames.map Prod.fst) →
    (∀ k, k ≤ frames.length →
      (run s (mediaEvents (frames.take k))).captureStartMs = some c ∧
      c ≤ (run s (mediaEvents (frames.take k))).latestMediaTimestamp ∧
      (run s (mediaEvents (frames.take k))).bufferedMs
        = (run s (mediaEvents (frames.take k))).latestMediaTimestamp - c ∧
      s.bufferedMs ≤ (run s (mediaEvents (frames.take k))).bufferedMs) ∧
    (∀ k, k < frames.length →
      (run s (mediaEvents (frames.take k))).bufferedMs
        ≤ (run s (mediaEvents (frames.take (k+1)))).bufferedMs) := by
  induction frames with
  | nil =>
      intro s c h1 h2 h3 _
      refine ⟨?_, ?_⟩
      · intro k hk
        have hk0 : k = 0 := Nat.le_zero.mp hk
        subst hk0
        exact ⟨h1, h2, h3, le_refl _⟩
      · intro k hk
        exact absurd hk (Nat.not_lt_zero k)
  | cons f rest ih =>
      intro s c h1 h2 h3 hchain
      have hchain' : List.Chain' (· ≤ ·)
          (s.latestMediaTimestamp :: f.1 :: rest.map Prod.fst) := by
        simpa using hchain
      have hsf : s.latestMediaTimestamp ≤ f.1 := (List.chain'_cons.mp hchain').1
      have hcf : c ≤ f.1 := le_trans h2 hsf
      have hcap := handleMedia_capture_some s f.1 f.2 c h1
      have hl1 : (handleMedia s f.1 f.2).latestMediaTimestamp = f.1 := by simp
      have hb1 : (handleMedia s f.1 f.2).bufferedMs = f.1 - c := by
        rw [hcap.2, max_eq_right (by omega)]
      have hchain1 : List.Chain' (· ≤ ·)
          ((handleMedia s f.1 f.2).latestMediaTimestamp :: rest.map Prod.fst) := by
        rw [hl1]
        exact (List.chain'_cons.mp hchain').2
      have IH := ih (handleMedia s f.1 f.2) c hcap.1 (by simp [hcf])
        (by rw [hb1, hl1]) hchain1
      refine ⟨?_, ?_⟩
      · intro k hk
        cases k with
        | zero => exact ⟨h1, h2, h3, le_refl _⟩
        | succ j =>
            have hj : j ≤ rest.length := Nat.succ_le_succ_iff.mp (by simpa using hk)
            rw [List.take_succ_cons]
            obtain ⟨ha, hb', hc', hd⟩ := IH.1 j hj
            refine ⟨ha, hb', hc', ?_⟩
            have hstep1 : s.bufferedMs ≤ (handleMedia s f.1 f.2).bufferedMs := by
              rw [h3, hb1]
              omega
            exact le_trans hstep1 hd
      · intro k hk
        cases k with
        | zero =>
            have e0 : run s (mediaEvents ((f :: rest).take 0)) = s := rfl
            have e1 : run s (mediaEvents ((f :: rest).take 1))
                = handleMedia s f.1 f.2 := rfl
            rw [e0, e1, h3, hb1]
            omega
        | succ j =>
            have hj : j < rest.length := Nat.succ_lt_succ_iff.mp (by simpa using hk)
            rw [List.take_succ_cons, List.take_succ_cons]
            exact IH.2 j hj

/-- C4: for every non-empty sequence of inbound media frames with
non-decreasing timestamps (the telephony peer's media clock) processed
from a state with no open window, after each frame `bufferedMs` equals
`latestMediaTimestamp - captureStartMs` and is non-negative, and the
successive `bufferedMs` values are monotonically non-decreasing across
the frames of the open window. -/
theorem claim_C4_buffered_window (s0 : Session) (f : Int × List Nat)
    (rest : List (Int × List Nat))
    (h0 : s0.captureStartMs = none)
    (hchain : List.Chain' (· ≤ ·) ((f :: rest).map Prod.fst)) :
    (∀ k, k < (f :: rest).length →
      ∃ c, (run s0 (mediaEvents ((f :: rest).take (k+1)))).captureStartMs = some c ∧
        (run s0 (mediaEvents ((f :: rest).take (k+1)))).bufferedMs
          = (run s0 (mediaEvents ((f :: rest).take (k+1)))).latestMediaTimestamp - c ∧
        0 ≤ (run s0 (mediaEvents ((f :: rest).take (k+1)))).bufferedMs) ∧
    (∀ k, k + 1 < (f :: rest).length →
      (run s0 (mediaEvents ((f :: rest).take (k+1)))).bufferedMs
        ≤ (run s0 (mediaEvents ((f :: rest).take (k+2)))).bufferedMs) := by
  have hcapn := handleMedia_capture_none s0 f.1 f.2 h0
  have hl1 : (handleMedia s0 f.1 f.2).latestMediaTimestamp = f.1 := by simp
  have hchain1 : List.Chain' (· ≤ ·)
      ((handleMedia s0 f.1 f.2).latestMediaTimestamp :: rest.map Prod.fst) := by
    rw [hl1]
    simpa using hchain
  have M := mediaRun_master rest (handleMedia s0 f.1 f.2) f.1 hcapn.1
    (by simp) (by rw [hcapn.2, hl1]; omega) hchain1
  have hstep : ∀ l, run s0 (mediaEvents (f :: l))
      = run (handleMedia s0 f.1 f.2) (mediaEvents l) := fun _ => rfl
  constructor
  · intro k hk
    have hk' : k ≤ rest.length := Nat.lt_succ_iff.mp (by simpa using hk)
    rw [List.take_succ_cons, hstep]
    obtain ⟨ha, hb', hc', _⟩ := M.1 k hk'
    exact ⟨f.1, ha, hc', by rw [hc']; omega⟩
  · intro k hk
    have hk' : k < rest.length := Nat.succ_lt_succ_iff.mp (by simpa using hk)
    rw [List.take_succ_cons, List.take_succ_cons, hstep, hstep]
    exact M.2 k hk'

/-- Witness for C4 on the concrete frame sequence with timestamps
0, 100, 300: the window invariant after the third frame and monotonicity
between the first and second frames. -/
theorem claim_C4_witness :
    (∃ c, (run initConn (mediaEvents (([((0 : Int), ([1] : List Nat)), (100, [2]),
          (300, [])]).take (2+1)))).captureStartMs = some c ∧
        (run initConn (mediaEvents (([((0 : Int), ([1] : List Nat)), (100, [2]),
          (300, [])]).take (2+1)))).bufferedMs
          = (run initConn (mediaEvents (([((0 : Int), ([1] : List Nat)), (100, [2]),
          (300, [])]).take (2+1)))).latestMediaTimestamp - c ∧
        0 ≤ (run initConn (mediaEvents (([((0 : Int), ([1] : List Nat)), (100, [2]),
          (300, [])]).take (2+1)))).bufferedMs) ∧
    (run initConn (mediaEvents (([((0 : Int), ([1] : List Nat)), (100, [2]),
          (300, [])]).take (0+1)))).bufferedMs
        ≤ (run initConn (mediaEvents (([((0 : Int), ([1] : List Nat)), (100, [2]),
          (300, [])]).take (0+2)))).bufferedMs :=
  ⟨(claim_C4_buffered_window initConn ((0 : Int), ([1] : List Nat)) [(100, [2]), (300, [])]
      rfl (by simp)).1 2 (by decide),
   (claim_C4_buffered_window initConn ((0 : Int), ([1] : List Nat)) [(100, [2]), (300, [])]
      rfl (by simp)).2 0 (by decide)⟩

end HomeSave
